import Mathlib

/-!
Shallow embedding of the TouchPortal plugin tooling scripts
(scripts/package.py, scripts/install.py,
feature-tests-workspace/run_feature_tests.py,
test-plugins/test_runtime_behaviours.py,
validation-failures-workspace/test_validation_failures.py)
together with theorems settling the claims about them.

Modelling conventions:
  - file modification times (Python floats) are modelled as rationals;
    only comparisons and maxima are performed on them in the source;
  - strings are Lean strings; Python list/str helpers used by the source
    are re-implemented below on lists of characters;
  - subprocess results are explicit outcome values (exit code captured
    output, timeout expiry, or a raised FileNotFoundError/OSError);
  - the working directory is threaded explicitly as a string state;
  - file contents are lists of bytes (naturals); ZIP compression is
    content-preserving so archive entries carry their bytes directly.
-/

namespace PluginScripts

/-! ## String helpers shared by the embeddings -/

/-- Python list-membership test of one character list inside another,
starting-at-head variant: does hay start with needle. -/
def startsWithL : List Char → List Char → Bool
  | _, [] => true
  | [], _ :: _ => false
  | a :: s, b :: p => a == b && startsWithL s p

/-- Python substring test needle in hay on character lists. -/
def containsL (needle : List Char) : List Char → Bool
  | [] => startsWithL [] needle
  | h :: t => startsWithL (h :: t) needle || containsL needle t

/-- Python substring test for strings: b in a. -/
def strContains (a b : String) : Bool :=
  containsL b.data a.data

/-- Drop an exact literal from the front of a character list, returning
the remainder when the literal is present. -/
def dropLit : List Char → List Char → Option (List Char)
  | s, [] => some s
  | [], _ :: _ => none
  | a :: s, b :: p => if a == b then dropLit s p else none

/-- Split a character list at its first slash character: returns the
segment before the first slash and the remainder after it. -/
def splitAtSlash : List Char → Option (List Char × List Char)
  | [] => none
  | c :: rest =>
    if c = '/' then some ([], rest)
    else
      match splitAtSlash rest with
      | some (g1, g2) => some (c :: g1, g2)
      | none => none

/-- Python cmd_value.split(" ", 1)[0]: everything before the first
space character. -/
def takeUntilSpace (s : String) : String :=
  String.mk (s.data.takeWhile (fun c => c ≠ ' '))

/-- Python Path(p).name for an ordinary file path: the component after
the final slash. -/
def pathBasename (p : String) : String :=
  String.mk ((p.data.reverse.takeWhile (fun c => c ≠ '/')).reverse)

/-! ## package.py: rebuild gate -/

/-- get_newest_source_time of package.py: fold over the modification
times of the files matching the source glob patterns, starting from 0
and keeping each time that strictly exceeds the running newest. -/
def get_newest_source_time (mtimes : List ℚ) : ℚ :=
  mtimes.foldl (fun newest m => if m > newest then m else newest) 0

/-- get_file_mtime of package.py: the stat mtime of the file, or 0 when
the file does not exist (FileNotFoundError). -/
def get_file_mtime : Option ℚ → ℚ
  | some t => t
  | none => 0

/-- The pipeline stages main of package.py can perform after reading
the plugin configuration. -/
inductive MainAction where
  | reportUpToDate
  | runBuilder
  | runValidator
  | runPackager
deriving DecidableEq, Repr

/-- The tail of main in package.py, after get_plugin_config and
check_requirements: compares the newest source time with the package
mtime, returns early (successfully) reporting the package up to date
when source_time <= package_time, and otherwise runs build_plugin,
validate_entry_tp and create_tpp_package in order, where a failing
build or validation exits unsuccessfully before the later stages.
Returns the list of stages performed and whether main exits
successfully. -/
def mainActions (sourceMtimes : List ℚ) (tppMtime : Option ℚ)
    (buildOk validateOk : Bool) : List MainAction × Bool :=
  let source_time := get_newest_source_time sourceMtimes
  let package_time := get_file_mtime tppMtime
  if source_time ≤ package_time then
    ([MainAction.reportUpToDate], true)
  else if !buildOk then
    ([MainAction.runBuilder], false)
  else if !validateOk then
    ([MainAction.runBuilder, MainAction.runValidator], false)
  else
    ([MainAction.runBuilder, MainAction.runValidator, MainAction.runPackager], true)

/-! ## package.py: start-command validator -/

/-- The literal placeholder at the front of the start-command pattern. -/
def tpFolderLit : List Char := "%TP_PLUGIN_FOLDER%".data

/-- Semantics of the Python regex fragment (.+)$ applied to the tail of
the command path: the dot does not match a newline and the dollar may
match either at the end of the string or just before one final newline,
so the capture succeeds exactly when the tail, after dropping one
trailing newline if present, is nonempty and newline-free. -/
def dotPlusDollar (s : List Char) : Option (List Char) :=
  let core := if s.getLast? = some '\n' then s.dropLast else s
  if core ≠ [] ∧ core.all (fun c => c ≠ '\n') then some core else none

/-- re.match of the pattern anchored at percent TP_PLUGIN_FOLDER percent
followed by one-or-more-non-slash capture, a slash, and a dot-plus
capture to the end, as used by validate_plugin_start_cmd. Returns the
two captured groups on success. -/
def matchStartCmd (cmd_path : String) : Option (String × String) :=
  match dropLit cmd_path.data tpFolderLit with
  | none => none
  | some rest =>
    match splitAtSlash rest with
    | none => none
    | some (g1, tail) =>
      if g1 = [] then none
      else
        match dotPlusDollar tail with
        | none => none
        | some g2 => some (String.mk g1, String.mk g2)

/-- Strip a trailing .exe from a binary name, as done for the
OS-specific start commands. -/
def stripExeSuffix (s : String) : String :=
  if s.endsWith ".exe" then String.mk (s.data.dropLast.dropLast.dropLast.dropLast) else s

/-- validate_plugin_start_cmd of package.py: returns whether validation
passes together with the list of messages passed to log_error on the
failing path. Absent values, the empty string and the literal string
null are skipped. Otherwise the portion of the value before the first
space must match the folder pattern, the captured directory must equal
plugin_name, and the captured binary segment must agree with the built
binary (exactly for the main command, ignoring a trailing .exe for the
OS-specific ones). -/
def validate_plugin_start_cmd (cmd_name : String) (cmd_value : Option String)
    (is_os_specific : Bool) (plugin_name : String) (plugin_exe : String) :
    Bool × List String :=
  match cmd_value with
  | none => (true, [])
  | some v =>
    if v = "" ∨ v = "null" then (true, [])
    else
      let cmd_path := takeUntilSpace v
      match matchStartCmd cmd_path with
      | none =>
        (false,
         [cmd_name ++ " has invalid format: " ++ v,
          "Expected format: %TP_PLUGIN_FOLDER%<plugin_name>/<binary_name> [args...]"])
      | some (expected_plugin_dir, expected_binary_name) =>
        if expected_plugin_dir ≠ plugin_name then
          (false,
           ["Plugin directory mismatch in " ++ cmd_name,
            "Expected: " ++ plugin_name,
            "Found: " ++ expected_plugin_dir,
            "This usually means the build.rs hardcoded directory doesn\x27t match Cargo.toml metadata"])
        else if is_os_specific then
          let expected_base_name := stripExeSuffix expected_binary_name
          let actual_base_name := stripExeSuffix (pathBasename plugin_exe)
          if expected_base_name ≠ actual_base_name then
            (false,
             ["Binary base name mismatch in " ++ cmd_name,
              "Expected: " ++ expected_base_name ++ " (ignoring OS suffix)",
              "Built: " ++ actual_base_name ++ " (ignoring OS suffix)",
              "This usually means the build.rs hardcoded binary name doesn\x27t match Cargo.toml metadata"])
          else (true, [])
        else
          let actual_binary_name := pathBasename plugin_exe
          if expected_binary_name ≠ actual_binary_name then
            (false,
             ["Binary name mismatch in " ++ cmd_name,
              "Expected: " ++ expected_binary_name,
              "Built: " ++ actual_binary_name,
              "This usually means the build.rs hardcoded binary name doesn\x27t match Cargo.toml metadata"])
          else (true, [])

/-- The parsed entry.tp descriptor as read by validate_entry_tp: the
required primary command is absent when the JSON key is missing, while
the OS-specific variants default to the empty string. -/
structure EntryTp where
  plugin_start_cmd : Option String
  plugin_start_cmd_windows : String
  plugin_start_cmd_mac : String
  plugin_start_cmd_linux : String
deriving DecidableEq, Repr

/-- validate_entry_tp of package.py on an already-parsed descriptor:
exits unsuccessfully when the required primary command is missing or
falsy, then runs validate_plugin_start_cmd over the four variants in
order and succeeds only when all pass. -/
def validate_entry_tp (entry : EntryTp) (plugin_name plugin_exe : String) : Bool :=
  match entry.plugin_start_cmd with
  | none => false
  | some v =>
    if v = "" then false
    else
      (validate_plugin_start_cmd "plugin_start_cmd" (some v) false plugin_name plugin_exe).1
      && (validate_plugin_start_cmd "plugin_start_cmd_windows"
            (some entry.plugin_start_cmd_windows) true plugin_name plugin_exe).1
      && (validate_plugin_start_cmd "plugin_start_cmd_mac"
            (some entry.plugin_start_cmd_mac) true plugin_name plugin_exe).1
      && (validate_plugin_start_cmd "plugin_start_cmd_linux"
            (some entry.plugin_start_cmd_linux) true plugin_name plugin_exe).1

/-! ## package.py: create_tpp_package -/

/-- A source file handed to the packager: its filesystem path and its
byte content. -/
structure SrcFile where
  path : String
  bytes : List Nat
deriving DecidableEq, Repr

/-- shutil.copy2 of a file into the staging directory: the file lands
under its basename, overwriting any staged file of the same name. -/
def copyInto (staging : List (String × List Nat)) (f : SrcFile) :
    List (String × List Nat) :=
  (staging.filter (fun e => e.1 ≠ pathBasename f.path)) ++
    [(pathBasename f.path, f.bytes)]

/-- The staging directory <temp>/<plugin_name> after create_tpp_package
copies the plugin executable and then the entry.tp file into it. -/
def stagingAfterCopies (plugin_exe entry_tp : SrcFile) :
    List (String × List Nat) :=
  copyInto (copyInto [] plugin_exe) entry_tp

/-- create_tpp_package of package.py: stages the two files under
<plugin_name>/ and writes each staged file into the ZIP archive with
its path relative to the temporary directory, so every archive entry
name is plugin_name slash staged-filename. Compression is
content-preserving, so entries carry their bytes. -/
def create_tpp_package (plugin_name : String) (plugin_exe entry_tp : SrcFile) :
    List (String × List Nat) :=
  (stagingAfterCopies plugin_exe entry_tp).map
    (fun e => (plugin_name ++ "/" ++ e.1, e.2))

/-- Extracting a ZIP archive writes each entry at its archive-internal
path with its bytes. -/
def extractArchive (entries : List (String × List Nat)) :
    List (String × List Nat) :=
  entries

/-! ## install.py: install_plugin -/

/-- A filesystem entry at some level of a directory tree: a regular
file with bytes, or a directory with its contents. -/
inductive FsEntry where
  | file (name : String) (bytes : List Nat)
  | dir (name : String) (contents : List FsEntry)

/-- Python is_dir on an extracted entry. -/
def FsEntry.isDir : FsEntry → Bool
  | FsEntry.dir _ _ => true
  | FsEntry.file _ _ => false

/-- The contents of a directory entry (iterdir on the extracted plugin
directory). -/
def FsEntry.contents : FsEntry → List FsEntry
  | FsEntry.dir _ c => c
  | FsEntry.file _ _ => []

mutual

/-- Number of regular files below one entry (rglob file count). -/
def countFilesEntry : FsEntry → Nat
  | FsEntry.file _ _ => 1
  | FsEntry.dir _ c => countFilesList c

/-- Number of regular files below a list of entries. -/
def countFilesList : List FsEntry → Nat
  | [] => 0
  | e :: rest => countFilesEntry e + countFilesList rest

end

/-- Result of install_plugin: the error message logged before the
unsuccessful exit (if any), the final state of the install directory
(none when it still does not exist), and the reported installed-file
count on success. -/
structure InstallOutcome where
  err : Option String
  dest : Option (List FsEntry)
  installedFiles : Option Nat

/-- install_plugin of install.py, after the archive has been extracted
into the temporary directory: filters the extracted top-level entries
to directories only; fails before touching the destination when there
are zero or more than one; otherwise creates the destination directory
if needed, removes all of its existing contents, and copies every item
of the single extracted directory into it, reporting the recursive
file count. The destination install directory starts as destInit
(none when it does not exist yet). -/
def install_plugin (tpp_file : String) (extracted : List FsEntry)
    (destInit : Option (List FsEntry)) : InstallOutcome :=
  let extracted_dirs := extracted.filter FsEntry.isDir
  match extracted_dirs with
  | [] =>
    { err := some ("No plugin directory found in " ++ tpp_file),
      dest := destInit, installedFiles := none }
  | [extracted_dir] =>
    let dest := some (destInit.getD [])
    let dest := dest.map (fun _ => ([] : List FsEntry))
    let dest := dest.map (fun _ => extracted_dir.contents)
    { err := none, dest := dest,
      installedFiles := some (countFilesList extracted_dir.contents) }
  | _ :: _ :: _ =>
    { err := some ("Multiple directories found in " ++ tpp_file ++
                   ", expected exactly one"),
      dest := destInit, installedFiles := none }

/-! ## Test runners: subprocess outcome models -/

/-- Outcome of a subprocess.run call made without a timeout (builds,
coverage report generation): the process completes with an exit code
and captured output, or the call raises FileNotFoundError/OSError. -/
inductive RunOutcome where
  | completed (exitCode : Int) (stderr : String)
  | raisesNotFound
deriving DecidableEq, Repr

/-- Outcome of a subprocess.run call made with a timeout (running the
plugin binary): completion with an exit code, expiry of the timeout
(subprocess.TimeoutExpired), or a raised FileNotFoundError. -/
inductive TimedRunOutcome where
  | completed (exitCode : Int)
  | timedOut
  | raisesNotFound
deriving DecidableEq, Repr

/-- Value produced by a runner body: a returned (success, message)
pair, or a raised exception named by a string that propagates to the
caller. -/
def RunnerResult := Except String (Bool × String)

/-! ## feature-tests-workspace/run_feature_tests.py -/

namespace FeatureTests

open PluginScripts

/-- run_plugin_test of run_feature_tests.py: records the original
working directory, changes into the plugin directory, builds (no
timeout) and then runs the plugin (with timeout) inside a try block,
and in a finally block always changes back to the original directory.
A build completing with a non-zero code is a build failure; a
completed run is classified by its exit code; timeout expiry is a
failure; a raised FileNotFoundError propagates to the caller. Colour
escapes are modelled by their empty-string fallbacks. Returns the body
result together with the working directory after the call. -/
def run_plugin_test (cwd0 plugin_dir : String) (buildOutcome : RunOutcome)
    (runOutcome : TimedRunOutcome) (enable_coverage : Bool) :
    RunnerResult × String :=
  let _cwdInBody := plugin_dir
  let body : RunnerResult :=
    match buildOutcome with
    | RunOutcome.raisesNotFound => Except.error "FileNotFoundError"
    | RunOutcome.completed brc bstderr =>
      if brc ≠ 0 then
        Except.ok (false, "FAILED (build failed: " ++ bstderr.trim ++ ")")
      else
        match runOutcome with
        | TimedRunOutcome.completed rc =>
          if rc = 0 then
            if enable_coverage then
              Except.ok (true, "PASSED (coverage data collected)")
            else
              Except.ok (true, "PASSED")
          else
            Except.ok (false, "FAILED (exit code " ++ toString rc ++ ")")
        | TimedRunOutcome.timedOut =>
          Except.ok (false, "FAILED (timed out - plugin should exit gracefully)")
        | TimedRunOutcome.raisesNotFound => Except.error "FileNotFoundError"
  (body, cwd0)

/-- generate_coverage_report_for_plugin of run_feature_tests.py: saves
the current directory, changes into the plugin directory, runs the
coverage report subprocess, and changes back only on the normal path;
a raised FileNotFoundError/OSError from the subprocess is caught and
turned into a False return, but the working directory is then left at
the plugin directory because there is no finally block. Returns the
success flag together with the working directory after the call. -/
def generate_coverage_report_for_plugin (cwd0 plugin_dir : String)
    (reportOutcome : RunOutcome) : Bool × String :=
  match reportOutcome with
  | RunOutcome.completed rc _ => (rc = 0, cwd0)
  | RunOutcome.raisesNotFound => (false, plugin_dir)

end FeatureTests

/-! ## test-plugins/test_runtime_behaviours.py -/

namespace RuntimeBehaviours

open PluginScripts

/-- run_plugin_test of test_runtime_behaviours.py: records the
original working directory, changes into the plugin directory, runs
cargo run with a timeout inside a try block, and in a finally block
always changes back. A completed run is classified by its exit code;
timeout expiry is a failure; a raised FileNotFoundError propagates.
Returns the body result together with the working directory after the
call. -/
def run_plugin_test (cwd0 plugin_dir : String)
    (runOutcome : TimedRunOutcome) : RunnerResult × String :=
  let _cwdInBody := plugin_dir
  let body : RunnerResult :=
    match runOutcome with
    | TimedRunOutcome.completed rc =>
      if rc = 0 then Except.ok (true, "PASSED")
      else Except.ok (false, "FAILED (exit code " ++ toString rc ++ ")")
    | TimedRunOutcome.timedOut =>
      Except.ok (false, "FAILED (timed out - plugin should exit gracefully)")
    | TimedRunOutcome.raisesNotFound => Except.error "FileNotFoundError"
  (body, cwd0)

end RuntimeBehaviours

/-! ## validation-failures-workspace/test_validation_failures.py -/

namespace ValidationFailures

open PluginScripts

/-- Outcome of the cargo check subprocess run with check=True: either
it exits zero (no exception), or it exits non-zero and the raised
CalledProcessError carries the captured standard error text. -/
inductive CheckOutcome where
  | succeeded
  | failedWith (stderr : String)
deriving DecidableEq, Repr

/-- test_plugin of test_validation_failures.py: fails early when the
plugin directory is missing or its package name cannot be read. With
no recorded expected-error text the component is an uncaught
validation test: a successful compile passes and a compile failure
fails. With a recorded expected-error text: a successful compile
fails, and a compile failure passes exactly when the expected text
occurs as a substring of the captured standard error. Returns
(status_message, success) with colour escapes modelled by their
empty-string fallbacks. -/
def test_plugin (plugin : String) (dirExists : Bool)
    (package_name : Option String) (expected_error : Option String)
    (check : CheckOutcome) : String × Bool :=
  if !dirExists then
    ("ERROR: Plugin directory " ++ plugin ++ " does not exist", false)
  else
    match package_name with
    | none => ("ERROR: " ++ plugin ++ "/Cargo.toml not found or invalid", false)
    | some _ =>
      match expected_error with
      | none =>
        match check with
        | CheckOutcome.succeeded =>
          ("✓ Plugin " ++ plugin ++
             " compiled successfully (expected - validation gap)", true)
        | CheckOutcome.failedWith _ =>
          ("⚠️  Plugin " ++ plugin ++
             " failed compilation - validation may have been implemented!\n" ++
             "This uncaught test should be moved to proper validation test with expected-error.txt",
           false)
      | some expected =>
        match check with
        | CheckOutcome.succeeded =>
          ("ERROR: Plugin " ++ plugin ++
             " compiled successfully, but it should have failed!", false)
        | CheckOutcome.failedWith actual_error =>
          if strContains actual_error expected then
            ("✓ Plugin " ++ plugin ++ " failed with expected error", true)
          else
            ("✗ Plugin " ++ plugin ++ " failed with unexpected error:\n" ++
               "Actual error: " ++ actual_error ++ "\n" ++
               "Expected error: " ++ expected, false)

end ValidationFailures

/-! ## Helper lemmas -/

/-- Characterization of startsWithL: the haystack begins with the
pattern exactly when it factors as pattern plus a remainder. -/
theorem startsWithL_iff (p : List Char) :
    ∀ s, startsWithL s p = true ↔ ∃ rest, s = p ++ rest := by
  induction p with
  | nil =>
    intro s
    simp [startsWithL]
  | cons b bs ih =>
    intro s
    cases s with
    | nil =>
      simp [startsWithL]
    | cons a as =>
      simp only [startsWithL, Bool.and_eq_true, beq_iff_eq, ih as, List.cons_append]
      constructor
      · rintro ⟨rfl, rest, rfl⟩
        exact ⟨rest, rfl⟩
      · rintro ⟨rest, h⟩
        cases h
        exact ⟨rfl, rest, rfl⟩

/-- Characterization of containsL: the needle occurs in the haystack
exactly when the haystack factors around it. -/
theorem containsL_iff (needle : List Char) :
    ∀ hay, containsL needle hay = true ↔
      ∃ pre post, hay = pre ++ needle ++ post := by
  intro hay
  induction hay with
  | nil =>
    simp only [containsL, startsWithL_iff]
    constructor
    · rintro ⟨rest, h⟩
      exact ⟨[], rest, h⟩
    · rintro ⟨pre, post, h⟩
      rw [List.append_assoc] at h
      rcases List.append_eq_nil.mp h.symm with ⟨h1, h2⟩
      exact ⟨post, by simp [h1, h2]⟩
  | cons h t ih =>
    simp only [containsL, Bool.or_eq_true, startsWithL_iff, ih]
    constructor
    · rintro (⟨rest, hr⟩ | ⟨pre, post, hp⟩)
      · exact ⟨[], rest, by simpa using hr⟩
      · exact ⟨h :: pre, post, by simp [hp]⟩
    · rintro ⟨pre, post, hp⟩
      cases pre with
      | nil =>
        left
        exact ⟨post, by simpa using hp⟩
      | cons x xs =>
        right
        simp only [List.cons_append, List.cons.injEq] at hp
        exact ⟨xs, post, hp.2⟩

/-- Characterization of strContains: b occurs in a as a substring
exactly when the character data of a factors around that of b. -/
theorem strContains_iff (a b : String) :
    strContains a b = true ↔ ∃ pre post, a.data = pre ++ b.data ++ post :=
  containsL_iff b.data a.data

/-- On the no-rebuild side of the gate, main reports the package up to
date and returns successfully. -/
theorem mainActions_of_le (mtimes : List ℚ) (tppM : Option ℚ) (b v : Bool)
    (h : get_newest_source_time mtimes ≤ get_file_mtime tppM) :
    mainActions mtimes tppM b v = ([MainAction.reportUpToDate], true) := by
  simp [mainActions, h]

/-- On the rebuild side of the gate, main always invokes the builder. -/
theorem mainActions_builder_mem (mtimes : List ℚ) (tppM : Option ℚ) (b v : Bool)
    (h : ¬ get_newest_source_time mtimes ≤ get_file_mtime tppM) :
    MainAction.runBuilder ∈ (mainActions mtimes tppM b v).1 := by
  cases b <;> cases v <;> simp [mainActions, h]

/-! ## Claim theorems -/

/-- Claim C1: for every source-tree newest modification time S (0 when
no source file matches the glob patterns) and existing-package
modification time A (0 when the .tpp file is absent), the packager
rebuilds iff S > A; when S equals A it does not rebuild, and in the
no-rebuild case it returns successfully after reporting the package up
to date, without invoking the builder, validator or packager stages. -/
theorem claim_C1_rebuild_gate (mtimes : List ℚ) (tppM : Option ℚ)
    (buildOk validateOk : Bool) :
    (MainAction.runBuilder ∈ (mainActions mtimes tppM buildOk validateOk).1 ↔
        get_file_mtime tppM < get_newest_source_time mtimes)
    ∧ (get_newest_source_time mtimes = get_file_mtime tppM →
        mainActions mtimes tppM buildOk validateOk =
          ([MainAction.reportUpToDate], true))
    ∧ (get_newest_source_time mtimes ≤ get_file_mtime tppM →
        mainActions mtimes tppM buildOk validateOk =
          ([MainAction.reportUpToDate], true)
        ∧ MainAction.runBuilder ∉ (mainActions mtimes tppM buildOk validateOk).1
        ∧ MainAction.runValidator ∉ (mainActions mtimes tppM buildOk validateOk).1
        ∧ MainAction.runPackager ∉ (mainActions mtimes tppM buildOk validateOk).1)
    ∧ get_newest_source_time [] = 0
    ∧ get_file_mtime none = 0 := by
  by_cases h : get_newest_source_time mtimes ≤ get_file_mtime tppM
  · have he := mainActions_of_le mtimes tppM buildOk validateOk h
    refine ⟨?_, fun _ => he, fun _ => ⟨he, ?_, ?_, ?_⟩, rfl, rfl⟩
    · rw [he]
      simp [not_lt.mpr h]
    · rw [he]
      simp
    · rw [he]
      simp
    · rw [he]
      simp
  · have hm := mainActions_builder_mem mtimes tppM buildOk validateOk h
    exact ⟨iff_of_true hm (not_le.mp h),
           fun heq => absurd (le_of_eq heq) h,
           fun hle => absurd hle h, rfl, rfl⟩

/-- Witness for claim C1 at the equal-timestamps input S = A = 5. -/
theorem claim_C1_rebuild_gate_witness :
    mainActions [(5 : ℚ)] (some 5) true true =
      ([MainAction.reportUpToDate], true) :=
  (claim_C1_rebuild_gate [(5 : ℚ)] (some 5) true true).2.1
    (by norm_num [get_newest_source_time, get_file_mtime])

/-- Claim C2: an archive whose extracted top level contains zero, or
two or more, directories makes install_plugin fail with the
corresponding error, and at the point of failure the destination
install directory has not been created, cleared or copied into. -/
theorem claim_C2_installer_error_no_mutation (tpp : String)
    (extracted : List FsEntry) (destInit : Option (List FsEntry)) :
    (extracted.filter FsEntry.isDir = [] →
      install_plugin tpp extracted destInit =
        { err := some ("No plugin directory found in " ++ tpp),
          dest := destInit, installedFiles := none })
    ∧ (2 ≤ (extracted.filter FsEntry.isDir).length →
      install_plugin tpp extracted destInit =
        { err := some ("Multiple directories found in " ++ tpp ++
                       ", expected exactly one"),
          dest := destInit, installedFiles := none }) := by
  refine ⟨fun h => ?_, fun h => ?_⟩
  · simp [install_plugin, h]
  · rcases hf : extracted.filter FsEntry.isDir with _ | ⟨a, _ | ⟨b, t⟩⟩
    · rw [hf] at h
      simp at h
    · rw [hf] at h
      simp at h
    · simp [install_plugin, hf]

/-- Witness for claim C2 at a concrete two-directory archive over a
non-empty pre-existing destination. -/
theorem claim_C2_installer_error_no_mutation_witness :
    install_plugin "x.tpp" [FsEntry.dir "A" [], FsEntry.dir "B" []]
        (some [FsEntry.file "old" [0]]) =
      { err := some ("Multiple directories found in " ++ "x.tpp" ++
                     ", expected exactly one"),
        dest := some [FsEntry.file "old" [0]], installedFiles := none } :=
  (claim_C2_installer_error_no_mutation "x.tpp"
      [FsEntry.dir "A" [], FsEntry.dir "B" []]
      (some [FsEntry.file "old" [0]])).2 (by decide)

/-- Claim C10: the installer counts only directories among the top
level of the extracted archive; with exactly one directory plus any
number of loose top-level regular files, installation succeeds and
only the contents of that single directory reach the destination. -/
theorem claim_C10_single_dir_with_loose_files (tpp : String)
    (files1 files2 : List FsEntry) (destInit : Option (List FsEntry))
    (dname : String) (dcontents : List FsEntry)
    (h1 : ∀ f ∈ files1, f.isDir = false)
    (h2 : ∀ f ∈ files2, f.isDir = false) :
    install_plugin tpp (files1 ++ FsEntry.dir dname dcontents :: files2) destInit =
      { err := none, dest := some dcontents,
        installedFiles := some (countFilesList dcontents) } := by
  have hf : (files1 ++ FsEntry.dir dname dcontents :: files2).filter FsEntry.isDir
      = [FsEntry.dir dname dcontents] := by
    rw [List.filter_append, List.filter_cons]
    rw [List.filter_eq_nil_iff.mpr (by simpa using h1),
        List.filter_eq_nil_iff.mpr (by simpa using h2)]
    simp [FsEntry.isDir]
  simp [install_plugin, hf, FsEntry.contents]

/-- Witness for claim C10: one directory plus two loose files installs
the directory contents only. -/
theorem claim_C10_single_dir_with_loose_files_witness :
    install_plugin "p.tpp"
        ([FsEntry.file "readme" [1]] ++
          FsEntry.dir "Foo" [FsEntry.file "bin" [2]] :: [FsEntry.file "extra" [3]])
        none =
      { err := none, dest := some [FsEntry.file "bin" [2]],
        installedFiles := some (countFilesList [FsEntry.file "bin" [2]]) } :=
  claim_C10_single_dir_with_loose_files "p.tpp"
    [FsEntry.file "readme" [1]] [FsEntry.file "extra" [3]] none
    "Foo" [FsEntry.file "bin" [2]]
    (by simp [FsEntry.isDir]) (by simp [FsEntry.isDir])

/-- Claim C3, counterexample: the literal string null, present as the
required primary start command, fails the regex shape yet is accepted
(skipped) by validate_plugin_start_cmd, so a shape-failing string is
not always rejected. -/
theorem claim_C3_counterexample :
    matchStartCmd (takeUntilSpace "null") = none
    ∧ validate_plugin_start_cmd "plugin_start_cmd" (some "null") false
        "Foo" "target/release/foo" = (true, []) := by
  constructor
  · rfl
  · rfl

/-- Claim C3 as amended: for every present start-command string other
than the empty string and the literal null (both of which are
skipped), a string whose path portion fails the regex shape is
rejected with the invalid-format messages regardless of any other
field, and a string whose path portion matches the shape but whose
captured directory segment differs from the display name is rejected
with messages naming both the expected and the found value. -/
theorem claim_C3_validator_rejection_amended (cmd_name v plugin_name plugin_exe : String)
    (os : Bool) (hne : v ≠ "") (hnull : v ≠ "null") :
    (matchStartCmd (takeUntilSpace v) = none →
      validate_plugin_start_cmd cmd_name (some v) os plugin_name plugin_exe =
        (false,
         [cmd_name ++ " has invalid format: " ++ v,
          "Expected format: %TP_PLUGIN_FOLDER%<plugin_name>/<binary_name> [args...]"]))
    ∧ (∀ g1 g2, matchStartCmd (takeUntilSpace v) = some (g1, g2) →
        g1 ≠ plugin_name →
        (validate_plugin_start_cmd cmd_name (some v) os plugin_name plugin_exe).1 = false
        ∧ ("Expected: " ++ plugin_name) ∈
            (validate_plugin_start_cmd cmd_name (some v) os plugin_name plugin_exe).2
        ∧ ("Found: " ++ g1) ∈
            (validate_plugin_start_cmd cmd_name (some v) os plugin_name plugin_exe).2) := by
  have hv : ¬(v = "" ∨ v = "null") := by simp [hne, hnull]
  constructor
  · intro hm
    simp [validate_plugin_start_cmd, hv, hm]
  · intro g1 g2 hm hg
    simp [validate_plugin_start_cmd, hv, hm, hg]

/-- Witness for the amended claim C3 at a command naming directory Bar
while the display name is Foo. -/
theorem claim_C3_validator_rejection_amended_witness :
    (validate_plugin_start_cmd "plugin_start_cmd"
        (some "%TP_PLUGIN_FOLDER%Bar/bin") false "Foo" "x/bin").1 = false
    ∧ ("Expected: " ++ "Foo") ∈
        (validate_plugin_start_cmd "plugin_start_cmd"
          (some "%TP_PLUGIN_FOLDER%Bar/bin") false "Foo" "x/bin").2
    ∧ ("Found: " ++ "Bar") ∈
        (validate_plugin_start_cmd "plugin_start_cmd"
          (some "%TP_PLUGIN_FOLDER%Bar/bin") false "Foo" "x/bin").2 :=
  (claim_C3_validator_rejection_amended "plugin_start_cmd"
      "%TP_PLUGIN_FOLDER%Bar/bin" "Foo" "x/bin" false
      (by decide) (by decide)).2 "Bar" "bin" (by rfl) (by decide)

/-- Claim C9: the literal string null as the required primary start
command makes validate_plugin_start_cmd skip every check and succeed
for any display name and binary, and a descriptor whose primary
command is null with no OS-specific variants passes validate_entry_tp
even though the primary command is required. -/
theorem claim_C9_null_primary_skipped (plugin_name plugin_exe : String) :
    validate_plugin_start_cmd "plugin_start_cmd" (some "null") false
        plugin_name plugin_exe = (true, [])
    ∧ validate_entry_tp
        { plugin_start_cmd := some "null", plugin_start_cmd_windows := "",
          plugin_start_cmd_mac := "", plugin_start_cmd_linux := "" }
        plugin_name plugin_exe = true := by
  constructor
  · rfl
  · rfl

/-- Claim C4: for a tested component, completion within the timeout
with exit code 0 is classified Passed, completion with a non-zero
exit code is classified Failed with the exit code in the message, and
timeout expiry is classified Failed with the timeout message and never
Passed, in both test runners. -/
theorem claim_C4_outcome_classification (cwd0 plugin_dir bstderr : String)
    (cov : Bool) (c : Int) (hc : c ≠ 0) :
    (FeatureTests.run_plugin_test cwd0 plugin_dir
        (RunOutcome.completed 0 bstderr) (TimedRunOutcome.completed 0) cov).1 =
      Except.ok (true,
        if cov then "PASSED (coverage data collected)" else "PASSED")
    ∧ (FeatureTests.run_plugin_test cwd0 plugin_dir
        (RunOutcome.completed 0 bstderr) (TimedRunOutcome.completed c) cov).1 =
      Except.ok (false, "FAILED (exit code " ++ toString c ++ ")")
    ∧ (FeatureTests.run_plugin_test cwd0 plugin_dir
        (RunOutcome.completed 0 bstderr) TimedRunOutcome.timedOut cov).1 =
      Except.ok (false, "FAILED (timed out - plugin should exit gracefully)")
    ∧ (RuntimeBehaviours.run_plugin_test cwd0 plugin_dir
        (TimedRunOutcome.completed 0)).1 = Except.ok (true, "PASSED")
    ∧ (RuntimeBehaviours.run_plugin_test cwd0 plugin_dir
        (TimedRunOutcome.completed c)).1 =
      Except.ok (false, "FAILED (exit code " ++ toString c ++ ")")
    ∧ (RuntimeBehaviours.run_plugin_test cwd0 plugin_dir
        TimedRunOutcome.timedOut).1 =
      Except.ok (false, "FAILED (timed out - plugin should exit gracefully)") := by
  refine ⟨?_, ?_, ?_, ?_, ?_, ?_⟩ <;>
    cases cov <;>
    simp [FeatureTests.run_plugin_test, RuntimeBehaviours.run_plugin_test, hc]

/-- Witness for claim C4 at a run that exits with code 3. -/
theorem claim_C4_outcome_classification_witness :
    (FeatureTests.run_plugin_test "/w" "p"
        (RunOutcome.completed 0 "") (TimedRunOutcome.completed 0) false).1 =
      Except.ok (true,
        if false then "PASSED (coverage data collected)" else "PASSED")
    ∧ (FeatureTests.run_plugin_test "/w" "p"
        (RunOutcome.completed 0 "") (TimedRunOutcome.completed 3) false).1 =
      Except.ok (false, "FAILED (exit code " ++ toString (3 : Int) ++ ")")
    ∧ (FeatureTests.run_plugin_test "/w" "p"
        (RunOutcome.completed 0 "") TimedRunOutcome.timedOut false).1 =
      Except.ok (false, "FAILED (timed out - plugin should exit gracefully)")
    ∧ (RuntimeBehaviours.run_plugin_test "/w" "p"
        (TimedRunOutcome.completed 0)).1 = Except.ok (true, "PASSED")
    ∧ (RuntimeBehaviours.run_plugin_test "/w" "p"
        (TimedRunOutcome.completed 3)).1 =
      Except.ok (false, "FAILED (exit code " ++ toString (3 : Int) ++ ")")
    ∧ (RuntimeBehaviours.run_plugin_test "/w" "p"
        TimedRunOutcome.timedOut).1 =
      Except.ok (false, "FAILED (timed out - plugin should exit gracefully)") :=
  claim_C4_outcome_classification "/w" "p" "" false 3 (by decide)

/-- Claim C5: a validation-failure component with a recorded
expected-error text passes exactly when its build fails and the
captured standard error contains the expected text as a substring; a
successful build is reported as failed, and a proper (non-equal)
substring occurrence suffices, as at the concrete E0502 input. -/
theorem claim_C5_expected_error_substring (plugin pkg expected : String)
    (outcome : ValidationFailures.CheckOutcome) :
    ((ValidationFailures.test_plugin plugin true (some pkg) (some expected)
        outcome).2 = true ↔
      ∃ s pre post, outcome = ValidationFailures.CheckOutcome.failedWith s
        ∧ s.data = pre ++ expected.data ++ post)
    ∧ (ValidationFailures.test_plugin plugin true (some pkg) (some expected)
        ValidationFailures.CheckOutcome.succeeded).2 = false
    ∧ (ValidationFailures.test_plugin "e0502-plugin" true (some "e0502-plugin")
        (some "E0502")
        (ValidationFailures.CheckOutcome.failedWith
          "error[E0502]: cannot borrow x as mutable")).2 = true := by
  refine ⟨?_, by simp [ValidationFailures.test_plugin], by decide⟩
  cases outcome with
  | succeeded =>
    simp [ValidationFailures.test_plugin]
  | failedWith s =>
    by_cases hb : strContains s expected = true
    · obtain ⟨pre, post, hd⟩ := (strContains_iff s expected).mp hb
      simp only [ValidationFailures.test_plugin, Bool.not_true, Bool.false_eq_true,
        if_false, hb, if_true]
      constructor
      · intro _
        exact ⟨s, pre, post, rfl, hd⟩
      · intro _
        trivial
    · have hb' : strContains s expected = false := by
        simpa using hb
      simp only [ValidationFailures.test_plugin, Bool.not_true, Bool.false_eq_true,
        if_false, hb', Bool.false_eq_true]
      constructor
      · intro h
        simp at h
      · rintro ⟨s', pre, post, hs, hd⟩
        cases hs
        exact absurd ((strContains_iff s expected).mpr ⟨pre, post, hd⟩)
          (by simp [hb'])

/-- Claim C6: a validation-failure component with no recorded
expected-error file has the inverted expectation: a successful compile
is the passing outcome and a compile failure is itself reported as a
failure. -/
theorem claim_C6_uncaught_gap_inverted (plugin pkg s : String) :
    (ValidationFailures.test_plugin plugin true (some pkg) none
        ValidationFailures.CheckOutcome.succeeded).2 = true
    ∧ (ValidationFailures.test_plugin plugin true (some pkg) none
        (ValidationFailures.CheckOutcome.failedWith s)).2 = false := by
  constructor
  · rfl
  · rfl

/-- Claim C7: generate_coverage_report_for_plugin does not restore the
prior working directory on the exceptional exit path: when the
coverage subprocess raises FileNotFoundError after the directory
change, the call returns with the working directory still set to the
plugin directory, unlike the two run_plugin_test operations whose
finally blocks always restore it. -/
theorem claim_C7_cwd_restoration_bug :
    (FeatureTests.generate_coverage_report_for_plugin "/workspace" "plugin-a"
        RunOutcome.raisesNotFound).2 = "plugin-a"
    ∧ "plugin-a" ≠ "/workspace"
    ∧ (∀ b r cov, (FeatureTests.run_plugin_test "/workspace" "plugin-a" b r cov).2 =
        "/workspace")
    ∧ (∀ r, (RuntimeBehaviours.run_plugin_test "/workspace" "plugin-a" r).2 =
        "/workspace") := by
  exact ⟨rfl, by decide, fun _ _ _ => rfl, fun _ => rfl⟩

/-- Claim C8, counterexample: when the binary file is itself named
entry.tp, staging overwrites it with the descriptor, so the archive
for display name Foo holds a single entry and extraction does not
reproduce the binary bytes. -/
theorem claim_C8_counterexample :
    create_tpp_package "Foo" ⟨"target/release/entry.tp", [1]⟩
        ⟨"build/out/entry.tp", [2]⟩ = [("Foo/entry.tp", [2])]
    ∧ ("Foo/entry.tp", [1]) ∉
        extractArchive (create_tpp_package "Foo" ⟨"target/release/entry.tp", [1]⟩
          ⟨"build/out/entry.tp", [2]⟩) := by
  constructor
  · rfl
  · decide

/-- Claim C8 as amended: for every display name, binary file whose
filename differs from entry.tp, and descriptor file named entry.tp,
the archive contains exactly the two entries display_name slash
binary-filename and display_name slash entry.tp, and extracting it
reproduces both files byte-identically. -/
theorem claim_C8_package_roundtrip_amended (plugin_name : String)
    (plugin_exe entry_tp : SrcFile)
    (htp : pathBasename entry_tp.path = "entry.tp")
    (hbin : pathBasename plugin_exe.path ≠ "entry.tp") :
    create_tpp_package plugin_name plugin_exe entry_tp =
      [(plugin_name ++ "/" ++ pathBasename plugin_exe.path, plugin_exe.bytes),
       (plugin_name ++ "/" ++ "entry.tp", entry_tp.bytes)]
    ∧ extractArchive (create_tpp_package plugin_name plugin_exe entry_tp) =
      [(plugin_name ++ "/" ++ pathBasename plugin_exe.path, plugin_exe.bytes),
       (plugin_name ++ "/" ++ "entry.tp", entry_tp.bytes)] := by
  have h : create_tpp_package plugin_name plugin_exe entry_tp =
      [(plugin_name ++ "/" ++ pathBasename plugin_exe.path, plugin_exe.bytes),
       (plugin_name ++ "/" ++ "entry.tp", entry_tp.bytes)] := by
    simp [create_tpp_package, stagingAfterCopies, copyInto, htp, hbin]
  exact ⟨h, by rw [extractArchive, h]⟩

/-- Witness for the amended claim C8 at display name Foo with binary
foo-bin, matching the spec instance. -/
theorem claim_C8_package_roundtrip_amended_witness :
    create_tpp_package "Foo" ⟨"target/release/foo-bin", [7, 8]⟩
        ⟨"build/out/entry.tp", [9]⟩ =
      [("Foo" ++ "/" ++ pathBasename "target/release/foo-bin", [7, 8]),
       ("Foo" ++ "/" ++ "entry.tp", [9])]
    ∧ extractArchive (create_tpp_package "Foo" ⟨"target/release/foo-bin", [7, 8]⟩
        ⟨"build/out/entry.tp", [9]⟩) =
      [("Foo" ++ "/" ++ pathBasename "target/release/foo-bin", [7, 8]),
       ("Foo" ++ "/" ++ "entry.tp", [9])] :=
  claim_C8_package_roundtrip_amended "Foo" ⟨"target/release/foo-bin", [7, 8]⟩
    ⟨"build/out/entry.tp", [9]⟩ (by decide) (by decide)

end PluginScripts
